import Mathlib

/-!
Verification of the ESIA FastAPI gateway against its specification.

The Python source under `app/` is shallowly embedded: pure helpers become
Lean functions, the relational store becomes explicit lists of rows, and
fallible code returns `Except`/`Option`/outcome types.  Machine-level
details that the spec treats as external collaborators (the HTTP client
transport, the web framework form layer, pydantic URL normalisation) are
modelled by their documented interface behaviour.  Timestamps are
abstracted to `Nat`.
-/

namespace EsiaGateway

/- ### Python string primitives -/

/-- Whitespace characters recognised by Python `str.split()` with no
arguments (space, tab, newline, carriage return, vertical tab, form feed). -/
def pyIsSpace (c : Char) : Bool :=
  c = ' ' || c = '\t' || c = '\n' || c = '\r' || c = '\x0b' || c = '\x0c'

/-- Worker for `pySplitWs`: accumulates the current token (reversed). -/
def splitWsAux : List Char → List Char → List (List Char)
  | [], acc => if acc.isEmpty then [] else [acc.reverse]
  | c :: cs, acc =>
    if pyIsSpace c then
      if acc.isEmpty then splitWsAux cs [] else acc.reverse :: splitWsAux cs []
    else splitWsAux cs (c :: acc)

/-- Python `s.split()` (no separator): split on whitespace runs, discarding
empty tokens. -/
def pySplitWs (s : String) : List String :=
  (splitWsAux s.toList []).map (fun l => String.mk l)

/-- UTF-8 encoding of one character, as byte values. -/
def charUtf8Bytes (c : Char) : List Nat :=
  let n := c.toNat
  if n < 128 then [n]
  else if n < 2048 then [192 + n / 64, 128 + n % 64]
  else if n < 65536 then [224 + n / 4096, 128 + (n / 64) % 64, 128 + n % 64]
  else [240 + n / 262144, 128 + (n / 4096) % 64, 128 + (n / 64) % 64, 128 + n % 64]

/-- Python `s.encode('utf-8')`: the UTF-8 byte sequence of a string. -/
def utf8Bytes (s : String) : List Nat := (s.toList.map charUtf8Bytes).flatten

/-- Uppercase hexadecimal digit for a value below 16. -/
def hexDigitUpper (n : Nat) : Char := "0123456789ABCDEF".toList.getD n '0'

/-- Bytes that `urllib.parse.quote_plus` leaves unescaped (ASCII letters,
digits, and the characters underscore, dot, dash, tilde). -/
def quoteSafeByte (b : Nat) : Bool :=
  (48 ≤ b && b ≤ 57) || (65 ≤ b && b ≤ 90) || (97 ≤ b && b ≤ 122) ||
    b = 95 || b = 46 || b = 45 || b = 126

/-- Per-byte output of `quote_plus`: space becomes `+`, safe bytes stay,
everything else is percent-encoded with uppercase hex. -/
def quotePlusByte (b : Nat) : List Char :=
  if b = 32 then ['+']
  else if quoteSafeByte b then [Char.ofNat b]
  else ['%', hexDigitUpper (b / 16), hexDigitUpper (b % 16)]

/-- Python `urllib.parse.quote_plus` over the UTF-8 bytes of a string. -/
def pyQuotePlus (s : String) : String :=
  String.mk (((utf8Bytes s).map quotePlusByte).flatten)

/-- Python `urllib.parse.urlencode` with its default `quote_via=quote_plus`:
encode each key and value and join `k=v` pairs with `&`. -/
def pyUrlencode (params : List (String × String)) : String :=
  String.intercalate "&" (params.map (fun kv => pyQuotePlus kv.1 ++ "=" ++ pyQuotePlus kv.2))

/-- Python truthiness-based defaulting used all over the API layer
(`if not x: x = fallback`): `None` and the empty string are falsy. -/
def resolveFalsy (given : Option String) (fallback : String) : String :=
  match given with
  | none => fallback
  | some s => if s = "" then fallback else s

/- ### SHA-256 (hashlib.sha256), on byte lists, words as Nat mod 2^32 -/

/-- Addition modulo 2^32. -/
def add32 (a b : Nat) : Nat := (a + b) % 4294967296

/-- Rotate a 32-bit word right by `k` bit positions. -/
def rotr32 (k n : Nat) : Nat := ((n >>> k) ||| (n <<< (32 - k))) % 4294967296

/-- Big-endian byte decomposition: `beBytes k n` is the `k` low-order bytes
of `n`, most significant first. -/
def beBytes : Nat → Nat → List Nat
  | 0, _ => []
  | k + 1, n => beBytes k (n / 256) ++ [n % 256]

/-- SHA-256 message padding: append `0x80`, zeros to 56 mod 64, and the
bit length as 8 big-endian bytes. -/
def shaPad (msg : List Nat) : List Nat :=
  let l := msg.length
  let k := (119 - l % 64) % 64
  msg ++ [128] ++ List.replicate k 0 ++ beBytes 8 (l * 8)

/-- Group bytes into big-endian 32-bit words. -/
def toWords : List Nat → List Nat
  | b1 :: b2 :: b3 :: b4 :: rest =>
    (b1 * 16777216 + b2 * 65536 + b3 * 256 + b4) :: toWords rest
  | _ => []

/-- Split a byte list into 64-byte blocks (fuel-based structural recursion;
the fuel `l.length` always suffices). -/
def chunk64Fuel : Nat → List Nat → List (List Nat)
  | 0, _ => []
  | _, [] => []
  | fuel + 1, l => l.take 64 :: chunk64Fuel fuel (l.drop 64)

/-- Split a byte list into 64-byte blocks. -/
def chunk64 (l : List Nat) : List (List Nat) := chunk64Fuel l.length l

/-- SHA-256 small sigma 0. -/
def sSig0 (x : Nat) : Nat := (rotr32 7 x) ^^^ (rotr32 18 x) ^^^ (x >>> 3)

/-- SHA-256 small sigma 1. -/
def sSig1 (x : Nat) : Nat := (rotr32 17 x) ^^^ (rotr32 19 x) ^^^ (x >>> 10)

/-- SHA-256 big sigma 0. -/
def bSig0 (x : Nat) : Nat := (rotr32 2 x) ^^^ (rotr32 13 x) ^^^ (rotr32 22 x)

/-- SHA-256 big sigma 1. -/
def bSig1 (x : Nat) : Nat := (rotr32 6 x) ^^^ (rotr32 11 x) ^^^ (rotr32 25 x)

/-- SHA-256 choice function. -/
def chF (x y z : Nat) : Nat := (x &&& y) ^^^ ((x ^^^ 4294967295) &&& z)

/-- SHA-256 majority function. -/
def majF (x y z : Nat) : Nat := (x &&& y) ^^^ (x &&& z) ^^^ (y &&& z)

/-- The 64 SHA-256 round constants. -/
def K256 : List Nat :=
  [1116352408, 1899447441, 3049323471, 3921009573, 961987163,
   1508970993, 2453635748, 2870763221, 3624381080, 310598401,
   607225278, 1426881987, 1925078388, 2162078206, 2614888103,
   3248222580, 3835390401, 4022224774, 264347078, 604807628,
   770255983, 1249150122, 1555081692, 1996064986, 2554220882,
   2821834349, 2952996808, 3210313671, 3336571891, 3584528711,
   113926993, 338241895, 666307205, 773529912, 1294757372,
   1396182291, 1695183700, 1986661051, 2177026350, 2456956037,
   2730485921, 2820302411, 3259730800, 3345764771, 3516065817,
   3600352804, 4094571909, 275423344, 430227734, 506948616,
   659060556, 883997877, 958139571, 1322822218, 1537002063,
   1747873779, 1955562222, 2024104815, 2227730452, 2361852424,
   2428436474, 2756734187, 3204031479, 3329325298]

/-- The SHA-256 initial hash value. -/
def H256 : List Nat :=
  [1779033703, 3144134277, 1013904242,
   2773480762, 1359893119, 2600822924,
   528734635, 1541459225]

/-- Extend the 16 message words to the 64-entry message schedule
(`n` extension steps). -/
def extendW : Nat → List Nat → List Nat
  | 0, w => w
  | n + 1, w =>
    let w0 := extendW n w
    let m := w0.length
    w0 ++ [add32 (add32 (sSig1 (w0.getD (m - 2) 0)) (w0.getD (m - 7) 0))
            (add32 (sSig0 (w0.getD (m - 15) 0)) (w0.getD (m - 16) 0))]

/-- The eight SHA-256 working variables. -/
structure ShaState where
  a : Nat
  b : Nat
  c : Nat
  d : Nat
  e : Nat
  f : Nat
  g : Nat
  h : Nat

/-- One SHA-256 compression round, consuming a (schedule word, constant)
pair. -/
def roundStep (st : ShaState) (wk : Nat × Nat) : ShaState :=
  let t1 := add32 (add32 (add32 st.h (bSig1 st.e)) (add32 (chF st.e st.f st.g) wk.2)) wk.1
  let t2 := add32 (bSig0 st.a) (majF st.a st.b st.c)
  ⟨add32 t1 t2, st.a, st.b, st.c, add32 st.d t1, st.e, st.f, st.g⟩

/-- Compress one 64-byte block into the running hash value. -/
def compressBlock (hs : List Nat) (block : List Nat) : List Nat :=
  let w := extendW 48 (toWords block)
  let s0 : ShaState := ⟨hs.getD 0 0, hs.getD 1 0, hs.getD 2 0, hs.getD 3 0,
                        hs.getD 4 0, hs.getD 5 0, hs.getD 6 0, hs.getD 7 0⟩
  let s := (w.zip K256).foldl roundStep s0
  [add32 (hs.getD 0 0) s.a, add32 (hs.getD 1 0) s.b, add32 (hs.getD 2 0) s.c,
   add32 (hs.getD 3 0) s.d, add32 (hs.getD 4 0) s.e, add32 (hs.getD 5 0) s.f,
   add32 (hs.getD 6 0) s.g, add32 (hs.getD 7 0) s.h]

/-- SHA-256 digest of a byte list (the behaviour of
`hashlib.sha256(...).digest()`). -/
def sha256 (msg : List Nat) : List Nat :=
  (((chunk64 (shaPad msg)).foldl compressBlock H256).map (beBytes 4)).flatten

/- ### base64 (Python base64.urlsafe_b64encode) -/

/-- The URL-safe base64 alphabet used by `base64.urlsafe_b64encode`. -/
def b64AlphabetUrl : List Char :=
  "ABCDEFGHIJKLMNOPQRSTUVWXYZabcdefghijklmnopqrstuvwxyz0123456789-_".toList

/-- Character for one 6-bit group. -/
def b64Char (n : Nat) : Char := b64AlphabetUrl.getD n 'A'

/-- Python `base64.urlsafe_b64encode` (with `=` padding), decoded to text. -/
def b64EncodePadded : List Nat → List Char
  | b1 :: b2 :: b3 :: rest =>
    b64Char (b1 / 4) :: b64Char (b1 % 4 * 16 + b2 / 16) ::
      b64Char (b2 % 16 * 4 + b3 / 64) :: b64Char (b3 % 64) :: b64EncodePadded rest
  | [b1, b2] => [b64Char (b1 / 4), b64Char (b1 % 4 * 16 + b2 / 16), b64Char (b2 % 16 * 4), '=']
  | [b1] => [b64Char (b1 / 4), b64Char (b1 % 4 * 16), '=', '=']
  | [] => []

/-- URL-safe base64 without padding — the form the spec describes
(RFC 7636 S256: base64url of the SHA-256 digest, padding stripped). -/
def b64EncodeNoPad : List Nat → List Char
  | b1 :: b2 :: b3 :: rest =>
    b64Char (b1 / 4) :: b64Char (b1 % 4 * 16 + b2 / 16) ::
      b64Char (b2 % 16 * 4 + b3 / 64) :: b64Char (b3 % 64) :: b64EncodeNoPad rest
  | [b1, b2] => [b64Char (b1 / 4), b64Char (b1 % 4 * 16 + b2 / 16), b64Char (b2 % 16 * 4)]
  | [b1] => [b64Char (b1 / 4), b64Char (b1 % 4 * 16)]
  | [] => []

/-- The padding tail produced by padded base64 for a given input length. -/
def b64PadTail : List Nat → List Char
  | _ :: _ :: _ :: rest => b64PadTail rest
  | [_, _] => ['=']
  | [_] => ['=', '=']
  | [] => []

/-- Python `s.rstrip('=')`: drop every trailing `=` character. -/
def pyRstripEq (s : String) : String :=
  String.mk ((s.toList.reverse.dropWhile (fun c => c == '=')).reverse)

/- ### OAuth2Service (src/app/services/oauth.py) -/

/-- The error object raised by `ValidationError(message, details=...)` in
`validate_scopes`: the details dict carries `invalid_scopes` and
`allowed_scopes`. -/
structure ScopeValidationErr where
  message : String
  invalid_scopes : List String
  allowed_scopes : List String
deriving Repr, DecidableEq

/-- Modelled from the spec: the `allowed_scopes` setting read by
`OAuth2Service.validate_scopes` via `settings.allowed_scopes` is absent from
the `Settings` class in src/app/core/config.py; the spec fixes the allow-list
as `openid, fullname, birthdate, gender, citizenship, id_doc, email, mobile,
addresses`. -/
def allowedScopes : List String :=
  ["openid", "fullname", "birthdate", "gender", "citizenship",
   "id_doc", "email", "mobile", "addresses"]

/-- Embedding of `OAuth2Service.validate_scopes` (src/app/services/oauth.py,
lines 41-66): split the scope string on whitespace, collect the tokens
outside the allow-list, and raise one aggregated `ValidationError` if any
exist, otherwise return the split list. -/
def validate_scopes (scopes : String) : Except ScopeValidationErr (List String) :=
  if ((pySplitWs scopes).filter (fun s => !decide (s ∈ allowedScopes))).isEmpty then
    .ok (pySplitWs scopes)
  else
    .error { message := "Недопустимые области доступа: " ++
               String.intercalate ", "
                 ((pySplitWs scopes).filter (fun s => !decide (s ∈ allowedScopes))),
             invalid_scopes := (pySplitWs scopes).filter (fun s => !decide (s ∈ allowedScopes)),
             allowed_scopes := allowedScopes }

/-- Embedding of `OAuth2Service.generate_code_challenge`
(src/app/services/oauth.py, lines 97-108): SHA-256 of the UTF-8 verifier,
URL-safe base64, then `rstrip('=')`. -/
def generate_code_challenge (code_verifier : String) : String :=
  pyRstripEq (String.mk (b64EncodePadded (sha256 (utf8Bytes code_verifier))))

/-- The spec's formula for the S256 code challenge, written independently:
URL-safe base64 encoding with trailing padding stripped, of the SHA-256
digest of the UTF-8 bytes of the verifier (unpadded base64url directly). -/
def codeChallengeSpec (verifier : String) : String :=
  String.mk (b64EncodeNoPad (sha256 (utf8Bytes verifier)))

/- ### Exceptions (src/app/core/exceptions.py) and Python runtime errors -/

/-- Python-level runtime failures relevant to this code base. -/
inductive PyExn where
  /-- Attribute access on an object that has no such attribute (pydantic
  models raise this for fields not declared on the schema). -/
  | attributeError (obj attr : String)
  /-- A name that is not bound in the module scope. -/
  | nameError (nm : String)
  /-- A pydantic validation failure (NOT the application's own
  `ValidationError` from src/app/core/exceptions.py). -/
  | pydanticValidationErr (field : String)
deriving Repr, DecidableEq

/-- Which class of the application exception hierarchy
(src/app/core/exceptions.py) an error instance belongs to.
`ESIAServiceError` subclasses `ExternalServiceError`; both carry
status 502. -/
inductive AppErrKind where
  | validationError
  | notFoundError
  | externalServiceError
  | esiaServiceError
deriving Repr, DecidableEq

/-- An application exception instance: kind, message, HTTP status and the
details mapping (modelled as an association list). -/
structure AppError where
  kind : AppErrKind
  message : String
  status_code : Nat
  details : List (String × String)
deriving Repr, DecidableEq

/- ### Settings (src/app/core/config.py) -/

/-- The `Settings` fields used by the embedded code paths
(src/app/core/config.py lines 15-52).  `allowed_scopes` and
`esia_base_url` are NOT fields of the source `Settings` class. -/
structure Settings where
  esia_demo_url : String := "https://demo.gate.esia.pro"
  esia_client_id : String := ""
  esia_client_secret : String := ""
  esia_redirect_uri : String := ""
deriving Repr, DecidableEq

/- ### Authorization request ledger (src/app/models/user.py, AuthorizationRequest) -/

/-- One row of the `authorization_requests` table.  Column defaults follow
the model: `is_completed` defaults to false, the code/error columns to
NULL. -/
structure LedgerRow where
  id : Nat
  client_id : String
  response_type : String
  provider : String
  scope : String
  redirect_uri : String
  state : String
  nonce : Option String := none
  authorization_code : Option String := none
  error : Option String := none
  error_description : Option String := none
  is_completed : Bool := false
  completed_at : Option Nat := none
deriving Repr, DecidableEq

/-- Embedding of `AuthorizationRequestRepository.get_by_state`
(src/app/repositories/user.py): first row whose `state` column matches. -/
def get_by_state (ledger : List LedgerRow) (state : String) : Option LedgerRow :=
  ledger.find? (fun r => r.state == state)

/-- Module-level names bound in src/app/repositories/user.py (its import
statements and top-level definitions).  `func` is NOT among them: the file
imports only `and_` from sqlalchemy, yet `update_with_code` and
`update_with_error` evaluate `func.now()`. -/
def userRepoModuleNames : List String :=
  ["Optional", "List", "Session", "and_", "User", "UserToken", "AuthorizationRequest",
   "UserCreate", "UserUpdate", "UserTokenCreate", "logging", "logger",
   "UserRepository", "UserTokenRepository", "AuthorizationRequestRepository"]

/-- Outcome of the ledger update methods: a successfully updated row plus
the new ledger, the Python `None` return for an unknown state, or an
uncaught Python exception (the session is closed without commit, so no
mutation is persisted). -/
inductive LedgerUpdateOutcome where
  | updated (row : LedgerRow) (ledger : List LedgerRow)
  | returnedNone
  | raised (e : PyExn)
deriving Repr, DecidableEq

/-- Replace the first element satisfying `p` by its image under `f`. -/
def updateFirst (p : α → Bool) (f : α → α) : List α → List α
  | [] => []
  | a :: t => if p a then f a :: t else a :: updateFirst p f t

/-- Embedding of `AuthorizationRequestRepository.update_with_code`
(src/app/repositories/user.py lines 263-289): look up by state, return
`None` if absent; otherwise set `authorization_code`, `is_completed` and
`completed_at = func.now()` — but `func` is unbound in that module, so the
assignment raises `NameError` before any commit. -/
def update_with_code (ledger : List LedgerRow) (state authorization_code : String)
    (now : Nat) : LedgerUpdateOutcome :=
  match get_by_state ledger state with
  | none => .returnedNone
  | some r =>
    if "func" ∈ userRepoModuleNames then
      let upd := fun (x : LedgerRow) =>
        { x with authorization_code := some authorization_code,
                 is_completed := true, completed_at := some now }
      .updated (upd r) (updateFirst (fun x => x.state == state) upd ledger)
    else
      .raised (.nameError "func")

/-- Embedding of `AuthorizationRequestRepository.update_with_error`
(src/app/repositories/user.py lines 291-319): same shape as
`update_with_code`, setting `error` and `error_description`; it evaluates
the same unbound `func.now()`. -/
def update_with_error (ledger : List LedgerRow) (state error error_description : String)
    (now : Nat) : LedgerUpdateOutcome :=
  match get_by_state ledger state with
  | none => .returnedNone
  | some r =>
    if "func" ∈ userRepoModuleNames then
      let upd := fun (x : LedgerRow) =>
        { x with error := some error, error_description := some error_description,
                 is_completed := true, completed_at := some now }
      .updated (upd r) (updateFirst (fun x => x.state == state) upd ledger)
    else
      .raised (.nameError "func")

/- ### Auth schemas (src/app/schemas/auth.py) -/

/-- The `ProviderType` enum. -/
inductive ProviderType where
  | esia_oauth
  | ebs_oauth
  | cpg_oauth
deriving Repr, DecidableEq

/-- String value of a provider enum member. -/
def ProviderType.value : ProviderType → String
  | .esia_oauth => "esia_oauth"
  | .ebs_oauth => "ebs_oauth"
  | .cpg_oauth => "cpg_oauth"

/-- Pydantic enum validation for `provider`. -/
def parseProvider : String → Option ProviderType
  | "esia_oauth" => some .esia_oauth
  | "ebs_oauth" => some .ebs_oauth
  | "cpg_oauth" => some .cpg_oauth
  | _ => none

/-- The `GrantType` enum. -/
inductive GrantType where
  | authorization_code
  | refresh_token
deriving Repr, DecidableEq

/-- String value of a grant type enum member. -/
def GrantType.value : GrantType → String
  | .authorization_code => "authorization_code"
  | .refresh_token => "refresh_token"

/-- Pydantic enum validation for `grant_type`. -/
def parseGrantType : String → Option GrantType
  | "authorization_code" => some .authorization_code
  | "refresh_token" => some .refresh_token
  | _ => none

/-- The validated pydantic `AuthorizeRequest` object
(src/app/schemas/auth.py).  The schema declares `response_type, provider,
scope, redirect_uri, state, nonce` only; `client_id` is NOT a field, so the
extra `client_id=` keyword passed by the endpoint is ignored by pydantic
(extra-ignore default) and the stored value here is always `none`,
modelling the later `AttributeError` on access. -/
structure AuthorizeRequestObj where
  client_id : Option String := none
  provider : ProviderType
  scope : String
  redirect_uri : Option String := none
  state : String
  nonce : Option String := none
deriving Repr, DecidableEq

/-- The validated pydantic `TokenRequest` object (src/app/schemas/auth.py
lines 42-48).  Fields: `grant_type, redirect_uri, code, refresh_token`.
There is no XOR validator tying `code`/`refresh_token` to the grant type,
and `client_id`/`client_secret` are NOT fields — the extra keywords passed
by the endpoint are ignored, so both are always `none` here. -/
structure TokenRequestObj where
  client_id : Option String := none
  client_secret : Option String := none
  grant_type : GrantType
  redirect_uri : Option String := none
  code : Option String := none
  refresh_token : Option String := none
deriving Repr, DecidableEq

/-- Pydantic construction of `TokenRequest` as performed by the `get_token`
endpoint: the only validation is the `grant_type` enum (plus the external
HttpUrl parse on `redirect_uri`, treated as an external collaborator and
assumed to pass); no presence check for `code`/`refresh_token` exists. -/
def tokenRequestValidate (grant_type : String)
    (redirect_uri code refresh_token : Option String) : Except PyExn TokenRequestObj :=
  match parseGrantType grant_type with
  | none => .error (.pydanticValidationErr "grant_type")
  | some g =>
    .ok { grant_type := g, redirect_uri := redirect_uri,
          code := code, refresh_token := refresh_token }

/- ### ESIAService (src/app/services/esia.py) -/

/-- The query-parameter list built by `ESIAService.build_authorization_url`
(src/app/services/esia.py lines 61-71) given the value the
`request.client_id` read would produce: `client_id, response_type,
provider, scope, redirect_uri, state`, plus `nonce` when present.  No
`code_challenge` or `code_challenge_method` entry is built here — PKCE
exists only in `OAuth2Service.build_authorization_url`, which serves the
HTML `/login` route, not `GET /auth/authorize`. -/
def esiaAuthParams (client_id : String) (req : AuthorizeRequestObj) : List (String × String) :=
  [("client_id", client_id),
   ("response_type", "code"),
   ("provider", req.provider.value),
   ("scope", req.scope),
   ("redirect_uri", req.redirect_uri.getD "None"),
   ("state", req.state)] ++
  (match req.nonce with
   | some n => [("nonce", n)]
   | none => [])

/-- Embedding of `ESIAService.build_authorization_url`
(src/app/services/esia.py lines 48-75).  The params dict literal begins by
reading `request.client_id`; the `AuthorizeRequest` schema has no such
field, so the read raises `AttributeError` whenever the object was built by
the `authorize` endpoint (where the extra keyword was ignored). -/
def esiaBuildAuthorizationUrl (base : String) (req : AuthorizeRequestObj) :
    Except PyExn String :=
  match req.client_id with
  | none => .error (.attributeError "AuthorizeRequest" "client_id")
  | some cid => .ok (base ++ "/auth/authorize?" ++ pyUrlencode (esiaAuthParams cid req))

/-- Provider-side outcome of one HTTP POST attempted by the ESIA client:
either a response (status, body) or a transport-level request error
(timeout, connection refused, DNS — httpx.RequestError). -/
inductive HttpOutcome where
  | resp (status : Nat) (body : String)
  | requestError (msg : String)
deriving Repr, DecidableEq

/-- Result of `exchange_code_for_token`: parsed token payload text, an
application exception, or an uncaught Python error. -/
inductive ExchangeResult where
  | ok (body : String)
  | appError (e : AppError)
  | pyError (e : PyExn)
deriving Repr, DecidableEq

/-- The form data dict built at the top of
`ESIAService.exchange_code_for_token` (src/app/services/esia.py lines
93-103), before the try-block: it reads `request.client_id` and
`request.client_secret`, which raise `AttributeError` on objects built from
the `TokenRequest` schema. -/
def exchangeDataDict (req : TokenRequestObj) : Except PyExn (List (String × String)) :=
  match req.client_id with
  | none => .error (.attributeError "TokenRequest" "client_id")
  | some cid =>
    match req.client_secret with
    | none => .error (.attributeError "TokenRequest" "client_secret")
    | some cs =>
      .ok ([("grant_type", req.grant_type.value),
            ("client_id", cid),
            ("client_secret", cs),
            ("redirect_uri", req.redirect_uri.getD "None")] ++
           (match req.code with
            | some c => [("code", c)]
            | none =>
              match req.refresh_token with
              | some rt => [("refresh_token", rt)]
              | none => []))

/-- Embedding of `ESIAService.exchange_code_for_token`
(src/app/services/esia.py lines 104-137).  Control flow of the source:
the data dict is built before the try-block; inside it, a non-200 response
raises `ESIAServiceError` with details carrying the response body and
status code, but that raise happens inside the same try whose final clause
is `except Exception`, which catches it and re-raises a fresh
`ESIAServiceError` whose only detail is the stringified message of the
inner error.  `httpx.RequestError` is caught by its own clause and wrapped
as `ExternalServiceError`. -/
def exchange_code_for_token (req : TokenRequestObj) (outcome : HttpOutcome) :
    ExchangeResult :=
  match exchangeDataDict req with
  | .error e => .pyError e
  | .ok _ =>
    match outcome with
    | .requestError msg =>
      .appError { kind := .externalServiceError,
                  message := "Ошибка соединения с ЕСИА",
                  status_code := 502,
                  details := [("error", msg)] }
    | .resp status body =>
      if status ≠ 200 then
        let innerMessage := "Ошибка получения токена: " ++ toString status
        .appError { kind := .esiaServiceError,
                    message := "Неожиданная ошибка при получении токена",
                    status_code := 502,
                    details := [("error", innerMessage)] }
      else
        .ok body

/-- The details dict the inner (dead) raise in `exchange_code_for_token`
constructs for a non-200 response — what the spec says should reach the
caller. -/
def innerProviderErrorDetails (status : Nat) (body : String) : List (String × String) :=
  [("response", body), ("status_code", toString status)]

/- ### API endpoints (src/app/api/v1/auth.py) -/

/-- Outcome of the `GET /auth/authorize` endpoint: a success payload
(`authorization_url`, `state`) or an HTTPException status. -/
inductive AuthorizeOutcome where
  | success (authorization_url : String) (state : String)
  | httpError (status : Nat)
deriving Repr, DecidableEq

/-- Embedding of the `authorize` endpoint (src/app/api/v1/auth.py lines
28-131).  `genState`/`genNonce` stand for the `uuid.uuid4()` draws used
when the caller omits `state`/`nonce`.  Steps: falsy-defaulting of state,
nonce and redirect_uri (422 if no redirect_uri is configured), pydantic
validation of `AuthorizeRequest` (enum failures are pydantic errors caught
by the generic `except Exception` handler, giving 400), persisting the
ledger row, then URL building — which raises `AttributeError` on
`request.client_id` and is likewise mapped to 400.  The ledger row persists
even then, because `create` committed before the crash. -/
def authorize_endpoint (st : Settings) (ledger : List LedgerRow) (nextId : Nat)
    (client_id response_type provider scope : String)
    (redirect_uri0 state0 nonce0 : Option String)
    (genState genNonce : String) : AuthorizeOutcome × List LedgerRow :=
  let state := resolveFalsy state0 genState
  let nonce := resolveFalsy nonce0 genNonce
  let redirect_uri := resolveFalsy redirect_uri0 st.esia_redirect_uri
  if redirect_uri = "" then
    (.httpError 422, ledger)
  else
    match parseProvider provider, response_type == "code" with
    | some prov, true =>
      let req : AuthorizeRequestObj :=
        { client_id := none, provider := prov, scope := scope,
          redirect_uri := some redirect_uri, state := state, nonce := some nonce }
      let row : LedgerRow :=
        { id := nextId, client_id := client_id, response_type := response_type,
          provider := provider, scope := scope, redirect_uri := redirect_uri,
          state := state, nonce := some nonce }
      match esiaBuildAuthorizationUrl st.esia_demo_url req with
      | .ok url => (.success url state, ledger ++ [row])
      | .error _ => (.httpError 400, ledger ++ [row])
    | _, _ => (.httpError 400, ledger)

/-- Embedding of the `get_token` endpoint (src/app/api/v1/auth.py lines
134-202), reduced to the HTTP status it produces.  The FastAPI form layer
rejects a missing required field (`grant_type, client_id, client_secret,
redirect_uri` are `Form(...)`) with 422 before the handler runs.  Inside
the handler, a pydantic validation failure on `TokenRequest` is NOT the
application `ValidationError`, so it falls to the generic handler (400);
an application exception from the exchange surfaces its own status code;
any other Python error (such as the `AttributeError` on the schema's
missing `client_id`) again gives 400. -/
def get_token_status (grant_type client_id client_secret redirect_uri : Option String)
    (code refresh_token : Option String) (outcome : HttpOutcome) : Nat :=
  if grant_type.isNone || client_id.isNone || client_secret.isNone || redirect_uri.isNone then
    422
  else
    match tokenRequestValidate (grant_type.getD "") redirect_uri code refresh_token with
    | .error _ => 400
    | .ok req =>
      match exchange_code_for_token req outcome with
      | .ok _ => 200
      | .appError e => e.status_code
      | .pyError _ => 400

/- ### User rows and ESIA user reconciliation (src/app/services/user.py) -/

/-- One row of the `users` table (src/app/models/user.py).  Boolean columns
carry their model defaults; `state_facts` is the JSON list column. -/
structure UserRow where
  id : Nat
  esia_uid : String
  first_name : Option String := none
  last_name : Option String := none
  middle_name : Option String := none
  trusted : Bool := false
  status : Option String := none
  verifying : Bool := false
  r_id_doc : Option Nat := none
  contains_up_cfm_code : Bool := false
  e_tag : Option String := none
  updated_on : Option Nat := none
  state_facts : List String := []
deriving Repr, DecidableEq

/-- The claims of one ESIA userinfo payload used by
`create_or_update_user_from_esia` (`esia_data.info` keys), with `sub` from
the envelope.  Absent keys are `none`. -/
structure EsiaUserInfo where
  sub : String
  uid : Option String := none
  firstName : Option String := none
  lastName : Option String := none
  middleName : Option String := none
  trusted : Option Bool := none
  status : Option String := none
  verifying : Option Bool := none
  rIdDoc : Option Nat := none
  containsUpCfmCode : Option Bool := none
  eTag : Option String := none
  updatedOn : Option Nat := none
  stateFacts : Option (List String) := none
deriving Repr, DecidableEq

/-- The `UserUpdate` payload built on the update path of
`create_or_update_user_from_esia` (src/app/services/user.py lines 171-189)
applied to a row: every one of the nine schema fields is passed explicitly,
so `model_dump(exclude_unset=True)` writes exactly these nine columns.
`r_id_doc` and `contains_up_cfm_code` are not fields of `UserUpdate`
(src/app/schemas/user.py lines 33-44) and are untouched. -/
def applyEsiaUserUpdate (info : EsiaUserInfo) (u : UserRow) : UserRow :=
  { u with
    first_name := info.firstName,
    last_name := info.lastName,
    middle_name := info.middleName,
    trusted := info.trusted.getD false,
    status := info.status,
    verifying := info.verifying.getD false,
    e_tag := info.eTag,
    updated_on := info.updatedOn,
    state_facts := info.stateFacts.getD [] }

/-- The `UserCreate` payload built on the create path of
`create_or_update_user_from_esia` (src/app/services/user.py lines 191-209),
materialised as a fresh row: here `r_id_doc` and `contains_up_cfm_code`
ARE written, from the claims (with default `false`). -/
def mkEsiaUserRow (nextId : Nat) (esia_uid : String) (info : EsiaUserInfo) : UserRow :=
  { id := nextId, esia_uid := esia_uid,
    first_name := info.firstName,
    last_name := info.lastName,
    middle_name := info.middleName,
    trusted := info.trusted.getD false,
    status := info.status,
    verifying := info.verifying.getD false,
    r_id_doc := info.rIdDoc,
    contains_up_cfm_code := info.containsUpCfmCode.getD false,
    e_tag := info.eTag,
    updated_on := info.updatedOn,
    state_facts := info.stateFacts.getD [] }

/-- Embedding of `UserService.create_or_update_user_from_esia`
(src/app/services/user.py lines 158-212): resolve the external uid
(claims `uid`, falling back to `sub`), look up by `esia_uid`; update the
nine mutable fields in place if found (the repository re-finds the row by
its internal id), otherwise create a fresh row. -/
def create_or_update_user_from_esia (users : List UserRow) (nextId : Nat)
    (info : EsiaUserInfo) : Except AppErrKind (UserRow × List UserRow) :=
  let esia_uid := info.uid.getD info.sub
  match users.find? (fun u => u.esia_uid == esia_uid) with
  | some existing =>
    match users.find? (fun u => u.id == existing.id) with
    | none => .error .notFoundError
    | some r =>
      .ok (applyEsiaUserUpdate info r,
           updateFirst (fun u => u.id == existing.id) (applyEsiaUserUpdate info) users)
  | none =>
    let row := mkEsiaUserRow nextId esia_uid info
    .ok (row, users ++ [row])

/- ### User tokens (src/app/repositories/user.py, UserTokenRepository) -/

/-- One row of the `user_tokens` table (src/app/models/user.py).
`is_active` has column default true. -/
structure TokenRow where
  id : Nat
  user_id : Nat
  access_token : String
  refresh_token : Option String := none
  token_type : String := "Bearer"
  expires_in : Option Nat := none
  scope : Option String := none
  id_token : Option String := none
  created_at_timestamp : Option Nat := none
  is_active : Bool := true
deriving Repr, DecidableEq

/-- The `UserTokenCreate` payload (src/app/schemas/user.py); it has no
`is_active` field, so a created row takes the column default. -/
structure UserTokenCreateData where
  user_id : Nat
  access_token : String
  token_type : String := "Bearer"
  expires_in : Option Nat := none
  refresh_token : Option String := none
  scope : Option String := none
  id_token : Option String := none
  created_at_timestamp : Option Nat := none
deriving Repr, DecidableEq

/-- Embedding of `UserTokenRepository.create` (src/app/repositories/user.py
lines 173-196): first a bulk UPDATE flips `is_active` to false on every
active token of this user, then the new row is inserted with the column
default `is_active = true`.  Returns the created row and the new table. -/
def user_token_create (tokens : List TokenRow) (nextId : Nat)
    (d : UserTokenCreateData) : TokenRow × List TokenRow :=
  let deactivated := tokens.map (fun t =>
    if t.user_id == d.user_id && t.is_active then { t with is_active := false } else t)
  let row : TokenRow :=
    { id := nextId, user_id := d.user_id, access_token := d.access_token,
      refresh_token := d.refresh_token, token_type := d.token_type,
      expires_in := d.expires_in, scope := d.scope, id_token := d.id_token,
      created_at_timestamp := d.created_at_timestamp, is_active := true }
  (row, deactivated ++ [row])

/- ### Organizations (src/app/services/organization.py, src/app/repositories/organization.py) -/

/-- One row of the `organizations` table (src/app/models/organization.py),
restricted to the columns the reconciliation paths touch. -/
structure OrgRow where
  id : Nat
  esia_oid : Nat
  prn_oid : Option Nat := none
  full_name : Option String := none
  short_name : Option String := none
  ogrn : Option String := none
  inn : Option String := none
  kpp : Option String := none
  org_type : Option String := none
  leg : Option String := none
  phone : Option String := none
  email : Option String := none
  is_chief : Bool := false
  is_admin : Bool := false
  is_active : Bool := true
  has_right_of_substitution : Bool := false
  has_approval_tab_access : Bool := false
  is_liquidated : Bool := false
  staff_count : Option Nat := none
  e_tag : Option String := none
deriving Repr, DecidableEq

/-- The claims of one ESIA organization payload (`org_info` keys) used by
`create_or_update_organization_from_esia`.  Absent keys are `none`. -/
structure EsiaOrgInfo where
  oid : Option Nat := none
  prnOid : Option Nat := none
  fullName : Option String := none
  shortName : Option String := none
  ogrn : Option String := none
  inn : Option String := none
  kpp : Option String := none
  typ : Option String := none
  leg : Option String := none
  phone : Option String := none
  email : Option String := none
  chief : Option Bool := none
  admin : Option Bool := none
  active : Option Bool := none
  hasRightOfSubstitution : Option Bool := none
  hasApprovalTabAccess : Option Bool := none
  isLiquidated : Option Bool := none
  staffCount : Option Nat := none
  eTag : Option String := none
deriving Repr, DecidableEq

/-- The `OrganizationUpdate` payload built on the update branch of
`create_or_update_organization_from_esia` (src/app/services/organization.py
lines 204-218) applied to a row: all seven schema fields are passed
explicitly, with `is_active = not org_info.get("isLiquidated", False)`. -/
def applyEsiaOrgUpdate (info : EsiaOrgInfo) (o : OrgRow) : OrgRow :=
  { o with
    full_name := info.fullName,
    short_name := info.shortName,
    phone := info.phone,
    email := info.email,
    is_active := !(info.isLiquidated.getD false),
    staff_count := info.staffCount,
    e_tag := info.eTag }

/-- The `OrganizationCreate` payload built on the create branch of
`create_or_update_organization_from_esia` (src/app/services/organization.py
lines 219-245), materialised as a fresh row: here `is_active` comes from
the claims key `active` (default true) and `is_liquidated` from
`isLiquidated` (default false) — `is_active` is NOT derived from
`isLiquidated` on this branch. -/
def mkEsiaOrgRow (nextId : Nat) (esia_oid : Nat) (info : EsiaOrgInfo) : OrgRow :=
  { id := nextId, esia_oid := esia_oid,
    prn_oid := info.prnOid,
    full_name := info.fullName,
    short_name := info.shortName,
    ogrn := info.ogrn,
    inn := info.inn,
    kpp := info.kpp,
    org_type := info.typ,
    leg := info.leg,
    phone := info.phone,
    email := info.email,
    is_chief := info.chief.getD false,
    is_admin := info.admin.getD false,
    is_active := info.active.getD true,
    has_right_of_substitution := info.hasRightOfSubstitution.getD false,
    has_approval_tab_access := info.hasApprovalTabAccess.getD false,
    is_liquidated := info.isLiquidated.getD false,
    staff_count := info.staffCount,
    e_tag := info.eTag }

/-- One row of the `user_organizations` table
(src/app/models/organization.py).  `is_active` has column default true. -/
structure MembershipRow where
  id : Nat
  user_id : Nat
  organization_id : Nat
  is_chief : Bool := false
  is_admin : Bool := false
  has_right_of_substitution : Bool := false
  has_approval_tab_access : Bool := false
  is_active : Bool := true
deriving Repr, DecidableEq

/-- The role-flag kwargs passed to `UserOrganizationRepository.create_or_update`
by the organization reconciliation (src/app/services/organization.py lines
247-254). -/
structure MembershipFlags where
  is_chief : Bool := false
  is_admin : Bool := false
  has_right_of_substitution : Bool := false
  has_approval_tab_access : Bool := false
deriving Repr, DecidableEq

/-- Predicate matching a membership row to a (user, organization) pair. -/
def memPair (user_id org_id : Nat) (m : MembershipRow) : Bool :=
  m.user_id == user_id && m.organization_id == org_id

/-- The per-row effect of the update branch of
`UserOrganizationRepository.create_or_update`: `setattr` for each kwarg
flag, then `is_active = True`.  The key columns are untouched. -/
def applyMembershipFlags (f : MembershipFlags) (m : MembershipRow) : MembershipRow :=
  { m with is_chief := f.is_chief, is_admin := f.is_admin,
           has_right_of_substitution := f.has_right_of_substitution,
           has_approval_tab_access := f.has_approval_tab_access,
           is_active := true }

/-- Embedding of `UserOrganizationRepository.create_or_update`
(src/app/repositories/organization.py lines 291-332): find the first row
for the pair; if found, set each kwarg flag and force `is_active = True`
(no new row); otherwise insert a fresh row with the kwargs and the
`is_active` column default true.  Returns the affected row and the new
table. -/
def membership_create_or_update (ms : List MembershipRow) (nextId user_id org_id : Nat)
    (f : MembershipFlags) : MembershipRow × List MembershipRow :=
  match ms.find? (memPair user_id org_id) with
  | some m => (applyMembershipFlags f m,
               updateFirst (memPair user_id org_id) (applyMembershipFlags f) ms)
  | none =>
    let m : MembershipRow :=
      { id := nextId, user_id := user_id, organization_id := org_id,
        is_chief := f.is_chief, is_admin := f.is_admin,
        has_right_of_substitution := f.has_right_of_substitution,
        has_approval_tab_access := f.has_approval_tab_access, is_active := true }
    (m, ms ++ [m])

/-- Embedding of `OrganizationService.create_or_update_organization_from_esia`
(src/app/services/organization.py lines 183-256): require the `oid` claim;
update the existing row for that `esia_oid` (via the repository, which
re-finds the row by internal id) or create a fresh one; then upsert the
user-organization membership with the claimed role flags.  Returns the
organization row together with the new organization and membership
tables. -/
def create_or_update_organization_from_esia (orgs : List OrgRow)
    (ms : List MembershipRow) (nextOrgId nextMsId : Nat) (info : EsiaOrgInfo)
    (user_id : Nat) :
    Except AppErrKind (OrgRow × List OrgRow × List MembershipRow) :=
  match info.oid with
  | none => .error .validationError
  | some oid =>
    let flags : MembershipFlags :=
      { is_chief := info.chief.getD false, is_admin := info.admin.getD false,
        has_right_of_substitution := info.hasRightOfSubstitution.getD false,
        has_approval_tab_access := info.hasApprovalTabAccess.getD false }
    match orgs.find? (fun o => o.esia_oid == oid) with
    | some existing =>
      match orgs.find? (fun o => o.id == existing.id) with
      | none => .error .notFoundError
      | some r =>
        let org := applyEsiaOrgUpdate info r
        let orgs1 := updateFirst (fun o => o.id == existing.id) (applyEsiaOrgUpdate info) orgs
        let msPair := membership_create_or_update ms nextMsId user_id org.id flags
        .ok (org, orgs1, msPair.2)
    | none =>
      let org := mkEsiaOrgRow nextOrgId oid info
      let orgs1 := orgs ++ [org]
      let msPair := membership_create_or_update ms nextMsId user_id org.id flags
      .ok (org, orgs1, msPair.2)

/- ### Concrete fixtures used by closed evaluation theorems -/

/-- A one-row ledger fixture: a pending authorization request with state
`s1`. -/
def sampleLedger : List LedgerRow :=
  [{ id := 1, client_id := "test_client", response_type := "code",
     provider := "esia_oauth", scope := "openid fullname",
     redirect_uri := "https://example.com/callback", state := "s1",
     nonce := some "n1" }]

/-- A token-request object carrying the client credentials the exchange
code expects to read — the shape `exchange_code_for_token` was written
for. -/
def exchangeReqFixture : TokenRequestObj :=
  { client_id := some "test_client", client_secret := some "secret",
    grant_type := .authorization_code,
    redirect_uri := some "https://example.com/cb", code := some "abc" }

/-- Details carried by an exchange result (empty unless it is an
application error). -/
def exchangeResultDetails : ExchangeResult → List (String × String)
  | .appError e => e.details
  | _ => []

/-- A stored user row fixture: known `esia_uid`, with identity-document
reference and confirmation-code flag set. -/
def demoUser : UserRow :=
  { id := 1, esia_uid := "1000123456", first_name := some "Иван",
    last_name := some "Иванов", r_id_doc := some 42, contains_up_cfm_code := true }

/-- A fresh ESIA userinfo claim set for the same subject with changed
names and no document claims. -/
def demoUserInfo : EsiaUserInfo :=
  { sub := "3", uid := some "1000123456", firstName := some "Пётр",
    lastName := some "Петров", trusted := some true, status := some "REGISTERED" }

/-- A stored organization row fixture with `esia_oid = 10`, currently
active. -/
def demoOrg : OrgRow := { id := 3, esia_oid := 10, short_name := some "ООО Ромашка" }

/-- An ESIA organization claim set naming `oid = 10` and claiming the
organization liquidated. -/
def demoLiqOrgInfo : EsiaOrgInfo :=
  { oid := some 10, shortName := some "ООО Ромашка", isLiquidated := some true }

/-- An inactive stored membership row for the pair (user 1, organization 2). -/
def demoMembership : MembershipRow :=
  { id := 7, user_id := 1, organization_id := 2, is_active := false }

/- ### Helper lemmas -/

/-- Padded base64 output is the unpadded output followed by the padding
tail determined by the input length. -/
theorem b64_padded_eq_nopad_append (l : List Nat) :
    b64EncodePadded l = b64EncodeNoPad l ++ b64PadTail l := by
  match l with
  | b1 :: b2 :: b3 :: rest =>
    simp [b64EncodePadded, b64EncodeNoPad, b64PadTail, b64_padded_eq_nopad_append rest]
  | [b1, b2] => simp [b64EncodePadded, b64EncodeNoPad, b64PadTail]
  | [b1] => simp [b64EncodePadded, b64EncodeNoPad, b64PadTail]
  | [] => simp [b64EncodePadded, b64EncodeNoPad, b64PadTail]

/-- Every alphabet character differs from the padding character. -/
theorem b64Char_ne_pad (n : Nat) : b64Char n ≠ '=' := by
  unfold b64Char
  rcases h : b64AlphabetUrl[n]? with _ | c
  · simp [List.getD, h]
  · have hm : c ∈ b64AlphabetUrl := List.getElem?_mem h
    simp [List.getD, h]
    intro he
    rw [he] at hm
    revert hm
    decide

/-- No character of the unpadded encoding is the padding character. -/
theorem b64_nopad_ne_pad (l : List Nat) : ∀ c ∈ b64EncodeNoPad l, c ≠ '=' := by
  match l with
  | b1 :: b2 :: b3 :: rest =>
    intro c hc
    simp [b64EncodeNoPad] at hc
    rcases hc with h | h | h | h | h
    all_goals first
      | (rw [h]; exact b64Char_ne_pad _)
      | exact b64_nopad_ne_pad rest c h
  | [b1, b2] =>
    intro c hc
    simp [b64EncodeNoPad] at hc
    rcases hc with h | h | h <;> (rw [h]; exact b64Char_ne_pad _)
  | [b1] =>
    intro c hc
    simp [b64EncodeNoPad] at hc
    rcases hc with h | h <;> (rw [h]; exact b64Char_ne_pad _)
  | [] => intro c hc; simp [b64EncodeNoPad] at hc

/-- The padding tail consists of padding characters only. -/
theorem b64_padtail_all_pad (l : List Nat) : ∀ c ∈ b64PadTail l, c = '=' := by
  match l with
  | _ :: _ :: _ :: rest => simpa [b64PadTail] using b64_padtail_all_pad rest
  | [_, _] => simp [b64PadTail]
  | [_] => simp [b64PadTail]
  | [] => simp [b64PadTail]

/-- dropWhile over an all-satisfying prefix skips the whole prefix. -/
theorem dropWhile_append_of_all {p : Char → Bool} (a b : List Char)
    (h : ∀ c ∈ a, p c = true) : List.dropWhile p (a ++ b) = List.dropWhile p b := by
  induction a with
  | nil => rfl
  | cons c t ih =>
    simp only [List.cons_append, List.dropWhile_cons, h c (by simp)]
    exact ih (fun x hx => h x (by simp [hx]))

/-- dropWhile is the identity when no element satisfies the predicate
(the head already fails). -/
theorem dropWhile_eq_self_of_none {p : Char → Bool} (x : List Char)
    (h : ∀ c ∈ x, p c = false) : List.dropWhile p x = x := by
  cases x with
  | nil => rfl
  | cons c t => simp [List.dropWhile_cons, h c (by simp)]

/-- Stripping trailing padding characters from a padding-free prefix
followed by pure padding returns the prefix. -/
theorem rstrip_append_pads (x padTl : List Char) (hx : ∀ c ∈ x, c ≠ '=')
    (hp : ∀ c ∈ padTl, c = '=') : pyRstripEq (String.mk (x ++ padTl)) = String.mk x := by
  unfold pyRstripEq
  congr 1
  show ((x ++ padTl).reverse.dropWhile (fun c => c == '=')).reverse = x
  rw [List.reverse_append]
  rw [dropWhile_append_of_all _ _ (by intro c hc; simp at hc; simp [hp c hc])]
  rw [dropWhile_eq_self_of_none _ (by intro c hc; simp at hc; simp [hx c hc])]
  exact List.reverse_reverse x

set_option maxRecDepth 10000 in
/-- Sanity anchor for the SHA-256 embedding: the FIPS 180-2 test vector for
the message `abc`. -/
theorem sha256_fips_vector_abc :
    sha256 (utf8Bytes "abc") =
      [0xba, 0x78, 0x16, 0xbf, 0x8f, 0x01, 0xcf, 0xea,
       0x41, 0x41, 0x40, 0xde, 0x5d, 0xae, 0x22, 0x23,
       0xb0, 0x03, 0x61, 0xa3, 0x96, 0x17, 0x7a, 0x9c,
       0xb4, 0x10, 0xff, 0x61, 0xf2, 0x00, 0x15, 0xad] := by
  decide

set_option maxRecDepth 10000 in
/-- Sanity anchor for the challenge pipeline: the RFC 7636 appendix B
verifier/challenge pair. -/
theorem code_challenge_rfc7636_vector :
    generate_code_challenge "dBjftJeZ4CVP-mB92K27uhbUJU1p1r_wW1gFWFOEjXk" =
      "E9Melhoa2OwvFrEMTJguCHaoeK1t8URWbuGJSstw-cM" := by
  decide

/- ### Claim theorems -/

/-- C9: for every verifier string `v`, `generate_code_challenge v` equals
the URL-safe base64 encoding, with trailing padding stripped, of the
SHA-256 digest of the UTF-8 bytes of `v` (the spec-side `codeChallengeSpec`
states exactly that formula with unpadded base64url).  Determinism is
immediate: the embedding is a pure function of `v`, so two calls with the
same verifier yield the same challenge. -/
theorem C9_generate_code_challenge_correct (v : String) :
    generate_code_challenge v = codeChallengeSpec v := by
  unfold generate_code_challenge codeChallengeSpec
  rw [b64_padded_eq_nopad_append]
  exact rstrip_append_pads _ _ (b64_nopad_ne_pad _) (b64_padtail_all_pad _)

/-- C5: for every scope string whose whitespace-separated tokens all belong
to the allow-list, `validate_scopes` returns exactly the split token list;
for every scope string with at least one token outside the allow-list it
raises a single aggregated validation error whose `invalid_scopes` detail is
exactly the list of offending tokens (in order) and whose details include
the allow-list. -/
theorem C5_validate_scopes_aggregated (scopes : String) :
    ((∀ t ∈ pySplitWs scopes, t ∈ allowedScopes) →
      validate_scopes scopes = .ok (pySplitWs scopes)) ∧
    ((∃ t ∈ pySplitWs scopes, t ∉ allowedScopes) →
      ∃ e, validate_scopes scopes = .error e ∧
        e.invalid_scopes = (pySplitWs scopes).filter (fun t => !decide (t ∈ allowedScopes)) ∧
        e.allowed_scopes = allowedScopes) := by
  constructor
  · intro hall
    have hnil : (pySplitWs scopes).filter (fun s => !decide (s ∈ allowedScopes)) = [] := by
      rw [List.filter_eq_nil_iff]
      intro a ha
      simp [hall a ha]
    simp [validate_scopes, hnil]
  · rintro ⟨t, ht, htn⟩
    have hne : ((pySplitWs scopes).filter (fun s => !decide (s ∈ allowedScopes))).isEmpty = false := by
      rcases h : ((pySplitWs scopes).filter (fun s => !decide (s ∈ allowedScopes))).isEmpty with _ | _
      · rfl
      · exfalso
        rw [List.isEmpty_iff] at h
        rw [List.filter_eq_nil_iff] at h
        exact h t ht (by simp [htn])
    simp only [validate_scopes, hne, Bool.false_eq_true, if_false]
    exact ⟨_, rfl, rfl, rfl⟩

/-- Witness for C5 at concrete inputs: `"openid fullname"` is fully allowed
and returns the split list; `"openid badscope"` fails with exactly
`["badscope"]` as the offending tokens. -/
theorem C5_validate_scopes_aggregated_witness :
    validate_scopes "openid fullname" = .ok ["openid", "fullname"] ∧
    ∃ e, validate_scopes "openid badscope" = .error e ∧
      e.invalid_scopes = ["badscope"] ∧ e.allowed_scopes = allowedScopes := by
  constructor
  · exact (C5_validate_scopes_aggregated "openid fullname").1 (by decide)
  · obtain ⟨e, he, hinv, hall⟩ :=
      (C5_validate_scopes_aggregated "openid badscope").2 ⟨"badscope", by decide, by decide⟩
    exact ⟨e, he, by rw [hinv]; decide, hall⟩

/-- C1: the claim states that a successful `GET /auth/authorize` returns an
`authorization_url` containing `code_challenge=` and
`code_challenge_method=S256` and a `state` matching the created ledger row.
The code cannot satisfy it: at the concrete request below (the spec's
literal scenario) the endpoint answers HTTP 400, because
`ESIAService.build_authorization_url` reads `request.client_id` while the
`AuthorizeRequest` schema has no such field (`AttributeError`, mapped to
400 by the generic handler) — the ledger row is still committed first.
Moreover the parameter list that builder assembles has no
`code_challenge`/`code_challenge_method` keys at all. -/
theorem C1_authorize_endpoint_failing_input :
    authorize_endpoint { esia_redirect_uri := "https://example.com/callback" } [] 1
        "test_client" "code" "esia_oauth" "openid fullname"
        none (some "state-123") (some "nonce-1") "gen-state" "gen-nonce" =
      (.httpError 400,
       [{ id := 1, client_id := "test_client", response_type := "code",
          provider := "esia_oauth", scope := "openid fullname",
          redirect_uri := "https://example.com/callback", state := "state-123",
          nonce := some "nonce-1" }]) ∧
    ((esiaAuthParams "test_client"
        { client_id := none, provider := .esia_oauth, scope := "openid fullname",
          redirect_uri := some "https://example.com/callback", state := "state-123",
          nonce := some "nonce-1" }).map Prod.fst) =
      ["client_id", "response_type", "provider", "scope", "redirect_uri", "state", "nonce"] ∧
    (((esiaAuthParams "test_client"
        { client_id := none, provider := .esia_oauth, scope := "openid fullname",
          redirect_uri := some "https://example.com/callback", state := "state-123",
          nonce := some "nonce-1" }).map Prod.fst).contains "code_challenge" = false) ∧
    (((esiaAuthParams "test_client"
        { client_id := none, provider := .esia_oauth, scope := "openid fullname",
          redirect_uri := some "https://example.com/callback", state := "state-123",
          nonce := some "nonce-1" }).map Prod.fst).contains "code_challenge_method" = false) := by
  decide

/-- C2: the claim states that `update_with_code(s, code)` on an existing
state sets the code, completion flag and timestamp and returns the row.
The code instead raises `NameError` on every such call: it evaluates
`func.now()` but `func` is never imported in
src/app/repositories/user.py, so at the failing input below (ledger
holding state `s1`) the call crashes and nothing is committed; the
unknown-state path still returns `None` (the not-found outcome) without
touching any row.  `update_with_error` fails the same way. -/
theorem C2_update_with_code_name_error :
    update_with_code sampleLedger "s1" "authcode-1" 100 = .raised (.nameError "func") ∧
    update_with_code sampleLedger "unknown-state" "authcode-1" 100 = .returnedNone ∧
    update_with_error sampleLedger "s1" "access_denied" "denied" 100 =
      .raised (.nameError "func") ∧
    update_with_error sampleLedger "unknown-state" "access_denied" "denied" 100 =
      .returnedNone := by
  decide

/-- C3 counterexample: the claim states that
`POST /auth/token` with `grant_type=authorization_code` and `code` absent
yields 422 with a detail mentioning `code`.  At that exact input (all
required form fields supplied) the endpoint returns 400, not 422: the
`TokenRequest` schema has no validator requiring `code`, so validation
passes, and the subsequent exchange dies on the schema's missing
`client_id` attribute, which the generic handler maps to 400. -/
theorem C3_missing_code_not_422 :
    get_token_status (some "authorization_code") (some "test_client") (some "secret")
        (some "https://example.com/cb") none none (.resp 200 "tokens") = 400 ∧
    ¬ (get_token_status (some "authorization_code") (some "test_client") (some "secret")
        (some "https://example.com/cb") none none (.resp 200 "tokens") = 422) := by
  decide

/-- C3 (amended): `POST /auth/token` responds 422 exactly when one of the
required form fields (`grant_type`, `client_id`, `client_secret`,
`redirect_uri`) is missing — the framework's form validation.  Neither an
unrecognised `grant_type` value nor a missing `code`/`refresh_token`
produces 422: the schema has no XOR validator, pydantic's validation error
is not the application `ValidationError` and falls to the generic 400
handler, and otherwise the exchange raises `AttributeError` (also 400). -/
theorem C3_token_422_iff_missing_form_field
    (grant_type client_id client_secret redirect_uri code refresh_token : Option String)
    (outcome : HttpOutcome) :
    get_token_status grant_type client_id client_secret redirect_uri code refresh_token
        outcome = 422 ↔
      (grant_type.isNone || client_id.isNone || client_secret.isNone ||
        redirect_uri.isNone) = true := by
  unfold get_token_status
  rcases hreq : (grant_type.isNone || client_id.isNone || client_secret.isNone ||
      redirect_uri.isNone) with _ | _
  · simp only [hreq, Bool.false_eq_true, if_false]
    constructor
    · intro h
      exfalso
      revert h
      unfold tokenRequestValidate
      rcases hg : parseGrantType (grant_type.getD "") with _ | g
      · simp
      · simp [exchange_code_for_token, exchangeDataDict]
    · intro h
      exact absurd h (by simp)
  · simp [hreq]

/-- C4: the claim states that a non-2xx provider response raises a provider
error whose details carry the HTTP status and the raw response body.  The
code contradicts it: the inner `ESIAServiceError` built with those details
is caught by the same function's final `except Exception` clause and
replaced by a fresh error whose only detail is the stringified inner
message — at the failing input (provider answers 400 with body
`invalid_grant`) the surviving details name neither the status key nor the
body.  The network-failure path does raise the distinct
`ExternalServiceError` as claimed. -/
theorem C4_exchange_detail_loss :
    exchange_code_for_token exchangeReqFixture (.resp 400 "invalid_grant") =
      .appError { kind := .esiaServiceError,
                  message := "Неожиданная ошибка при получении токена",
                  status_code := 502,
                  details := [("error", "Ошибка получения токена: 400")] } ∧
    (exchangeResultDetails
        (exchange_code_for_token exchangeReqFixture (.resp 400 "invalid_grant"))).map
        Prod.fst = ["error"] ∧
    ¬ (exchangeResultDetails
        (exchange_code_for_token exchangeReqFixture (.resp 400 "invalid_grant")) =
       innerProviderErrorDetails 400 "invalid_grant") ∧
    ((exchangeResultDetails
        (exchange_code_for_token exchangeReqFixture (.resp 400 "invalid_grant"))).map
        Prod.snd).contains "invalid_grant" = false ∧
    exchange_code_for_token exchangeReqFixture (.requestError "timeout") =
      .appError { kind := .externalServiceError,
                  message := "Ошибка соединения с ЕСИА",
                  status_code := 502,
                  details := [("error", "timeout")] } := by
  decide

/-- updateFirst never changes the length of the table. -/
theorem updateFirst_length {α : Type} (p : α → Bool) (f : α → α) (l : List α) :
    (updateFirst p f l).length = l.length := by
  induction l with
  | nil => rfl
  | cons a t ih =>
    unfold updateFirst
    by_cases h : p a = true
    · simp [h]
    · simp [h, ih]

/-- updateFirst preserves the match count when the update keeps the row
matching. -/
theorem countP_updateFirst {α : Type} (p : α → Bool) (f : α → α) (l : List α)
    (hf : ∀ a, p a = true → p (f a) = true) :
    (updateFirst p f l).countP p = l.countP p := by
  induction l with
  | nil => rfl
  | cons a t ih =>
    unfold updateFirst
    by_cases h : p a = true
    · simp [List.countP_cons, h, hf a h]
    · simp [List.countP_cons, h, ih]

/-- Bulk deactivation leaves no active token of the targeted user. -/
theorem filter_active_after_deactivate (u : Nat) (tokens : List TokenRow) :
    (tokens.map (fun t =>
        if t.user_id == u && t.is_active then { t with is_active := false } else t)).filter
      (fun t => t.user_id == u && t.is_active) = [] := by
  induction tokens with
  | nil => rfl
  | cons t ts ih =>
    rw [List.map_cons, List.filter_cons]
    by_cases h : (t.user_id == u && t.is_active) = true
    · simp only [if_pos h]
      have hfalse : (({ t with is_active := false } : TokenRow).user_id == u &&
          ({ t with is_active := false } : TokenRow).is_active) = false := by
        simp
      rw [hfalse]
      simpa using ih
    · rw [if_neg h]
      have hfalse : (t.user_id == u && t.is_active) = false := by
        simpa using h
      rw [hfalse]
      simpa using ih

/-- C7: for every token table and every creation, the resulting table has
exactly one active token row for the creating user, and it is the row just
created (every previously active token of that user is flipped to
inactive, and the new row is created active).  Applied after each step of
any sequence of creations, this yields the single-active invariant; in
particular after two successive creations only the second row is active. -/
theorem C7_single_active_token (tokens : List TokenRow) (nextId : Nat)
    (d : UserTokenCreateData) :
    (user_token_create tokens nextId d).2.filter
        (fun t => t.user_id == d.user_id && t.is_active) =
      [(user_token_create tokens nextId d).1] ∧
    (user_token_create tokens nextId d).1.is_active = true := by
  constructor
  · unfold user_token_create
    rw [List.filter_append, filter_active_after_deactivate]
    simp [List.filter_cons]
  · rfl

/-- C8: the membership store keeps at most one row per
(`user_id`, `organization_id`) pair across `create_or_update`: the affected
row ends active; if the table held at most one row for the pair it holds
exactly one afterwards; when a row for the pair exists (even inactive) it
is updated in place — flags set, `is_active` forced true, no row added —
and when none exists exactly one new row is appended. -/
theorem C8_membership_upsert_unique (ms : List MembershipRow)
    (nextId user_id org_id : Nat) (f : MembershipFlags) :
    (membership_create_or_update ms nextId user_id org_id f).1.is_active = true ∧
    (ms.countP (memPair user_id org_id) ≤ 1 →
      (membership_create_or_update ms nextId user_id org_id f).2.countP
        (memPair user_id org_id) = 1) ∧
    (∀ m, ms.find? (memPair user_id org_id) = some m →
      (membership_create_or_update ms nextId user_id org_id f).2.length = ms.length ∧
      (membership_create_or_update ms nextId user_id org_id f).1 =
        applyMembershipFlags f m) ∧
    (ms.find? (memPair user_id org_id) = none →
      (membership_create_or_update ms nextId user_id org_id f).2 =
        ms ++ [(membership_create_or_update ms nextId user_id org_id f).1]) := by
  rcases hfind : ms.find? (memPair user_id org_id) with _ | m
  · refine ⟨?_, ?_, ?_, ?_⟩
    · simp [membership_create_or_update, hfind, applyMembershipFlags]
    · intro _
      have h0 : ms.countP (memPair user_id org_id) = 0 := by
        rw [List.countP_eq_zero]
        intro a ha
        exact List.find?_eq_none.mp hfind a ha
      simp [membership_create_or_update, hfind, List.countP_append, h0,
            List.countP_cons, memPair]
    · intro m hm
      cases hm
    · intro _
      simp [membership_create_or_update, hfind]
  · have hfound : memPair user_id org_id m = true := List.find?_some hfind
    have hmem : m ∈ ms := List.mem_of_find?_eq_some hfind
    refine ⟨?_, ?_, ?_, ?_⟩
    · simp [membership_create_or_update, hfind, applyMembershipFlags]
    · intro hle
      have h1 : ms.countP (memPair user_id org_id) = 1 := by
        have hpos : 0 < ms.countP (memPair user_id org_id) :=
          List.countP_pos_iff.mpr ⟨m, hmem, hfound⟩
        omega
      have hkeep : ∀ a, memPair user_id org_id a = true →
          memPair user_id org_id (applyMembershipFlags f a) = true := by
        intro a ha
        simpa [memPair, applyMembershipFlags] using ha
      simp only [membership_create_or_update, hfind]
      rw [countP_updateFirst _ _ _ hkeep, h1]
    · intro m2 hm2
      injection hm2 with hm2
      subst hm2
      constructor
      · simp only [membership_create_or_update, hfind]
        exact updateFirst_length _ _ _
      · simp [membership_create_or_update, hfind]
    · intro hnone
      cases hnone

/-- Witness for C8 at concrete inputs: reconciling the pair (1, 2) over a
table holding one inactive row for that pair updates it in place (same
length, reactivated); reconciling over the empty table appends exactly one
row. -/
theorem C8_membership_upsert_unique_witness :
    ([demoMembership].countP (memPair 1 2) ≤ 1 ∧
      (membership_create_or_update [demoMembership] 8 1 2 {}).2.countP (memPair 1 2) = 1) ∧
    ((membership_create_or_update [demoMembership] 8 1 2 {}).2.length = 1 ∧
      (membership_create_or_update [demoMembership] 8 1 2 {}).1 =
        applyMembershipFlags {} demoMembership) ∧
    (membership_create_or_update [] 8 1 2 {}).2 =
      [] ++ [(membership_create_or_update [] 8 1 2 {}).1] := by
  have hu := C8_membership_upsert_unique [demoMembership] 8 1 2 {}
  have hc := C8_membership_upsert_unique [] 8 1 2 {}
  refine ⟨⟨by decide, hu.2.1 (by decide)⟩, ?_, hc.2.2.2 (by decide)⟩
  have h3 := hu.2.2.1 demoMembership (by decide)
  exact ⟨h3.1, h3.2⟩

/-- C6 counterexample: the claim states that a claim set with
`isLiquidated = true` always yields a row with `is_active = false`, also on
the create path.  For the concrete claim set with `oid = 10`,
`isLiquidated = true` and no `active` key, reconciled against an empty
organization table, the created row has `is_active = true` (the create
branch takes `is_active` from the absent `active` claim's default `True`,
not from `isLiquidated`). -/
theorem C6_liquidated_create_counterexample :
    ∃ org orgs1 ms1,
      create_or_update_organization_from_esia [] [] 1 1
          { oid := some 10, isLiquidated := some true } 5 = .ok (org, orgs1, ms1) ∧
      org.is_active = true ∧ org.is_liquidated = true := by
  exact ⟨_, _, _, rfl, rfl, rfl⟩

/-- C6 (amended): during reconciliation, `is_active` is the negation of the
claimed `isLiquidated` flag only on the update branch; on the create branch
the new row takes `is_active` from the claimed `active` flag (default
true), independent of `isLiquidated`, which is stored in `is_liquidated`.
So a liquidated organization ends up inactive when updated, but a
previously unseen liquidated organization is created active unless the
claim set also carries `active = false`. -/
theorem C6_is_active_reconciliation (orgs : List OrgRow) (ms : List MembershipRow)
    (nextOrgId nextMsId user_id : Nat) (info : EsiaOrgInfo) (oid : Nat)
    (hoid : info.oid = some oid) :
    (∀ existing r, orgs.find? (fun o => o.esia_oid == oid) = some existing →
      orgs.find? (fun o => o.id == existing.id) = some r →
      ∃ orgs1 ms1,
        create_or_update_organization_from_esia orgs ms nextOrgId nextMsId info user_id =
          .ok (applyEsiaOrgUpdate info r, orgs1, ms1) ∧
        (applyEsiaOrgUpdate info r).is_active = !(info.isLiquidated.getD false)) ∧
    (orgs.find? (fun o => o.esia_oid == oid) = none →
      ∃ orgs1 ms1,
        create_or_update_organization_from_esia orgs ms nextOrgId nextMsId info user_id =
          .ok (mkEsiaOrgRow nextOrgId oid info, orgs1, ms1) ∧
        (mkEsiaOrgRow nextOrgId oid info).is_active = info.active.getD true ∧
        (mkEsiaOrgRow nextOrgId oid info).is_liquidated = info.isLiquidated.getD false) := by
  constructor
  · intro existing r h1 h2
    have hmain : create_or_update_organization_from_esia orgs ms nextOrgId nextMsId
        info user_id =
        .ok (applyEsiaOrgUpdate info r,
             updateFirst (fun o => o.id == existing.id) (applyEsiaOrgUpdate info) orgs,
             (membership_create_or_update ms nextMsId user_id
               (applyEsiaOrgUpdate info r).id
               { is_chief := info.chief.getD false, is_admin := info.admin.getD false,
                 has_right_of_substitution := info.hasRightOfSubstitution.getD false,
                 has_approval_tab_access := info.hasApprovalTabAccess.getD false }).2) := by
      unfold create_or_update_organization_from_esia
      rw [hoid]
      simp [h1, h2]
    exact ⟨_, _, hmain, rfl⟩
  · intro h
    have hmain : create_or_update_organization_from_esia orgs ms nextOrgId nextMsId
        info user_id =
        .ok (mkEsiaOrgRow nextOrgId oid info,
             orgs ++ [mkEsiaOrgRow nextOrgId oid info],
             (membership_create_or_update ms nextMsId user_id
               (mkEsiaOrgRow nextOrgId oid info).id
               { is_chief := info.chief.getD false, is_admin := info.admin.getD false,
                 has_right_of_substitution := info.hasRightOfSubstitution.getD false,
                 has_approval_tab_access := info.hasApprovalTabAccess.getD false }).2) := by
      unfold create_or_update_organization_from_esia
      rw [hoid]
      simp [h]
    exact ⟨_, _, hmain, rfl, rfl⟩

/-- Witness for C6 (amended) at concrete inputs: updating the stored
organization 10 from a liquidated claim set flips it inactive; creating an
unseen liquidated organization leaves it active while recording the
liquidation flag. -/
theorem C6_is_active_reconciliation_witness :
    (∃ orgs1 ms1,
      create_or_update_organization_from_esia [demoOrg] [] 4 9 demoLiqOrgInfo 5 =
        .ok (applyEsiaOrgUpdate demoLiqOrgInfo demoOrg, orgs1, ms1) ∧
      (applyEsiaOrgUpdate demoLiqOrgInfo demoOrg).is_active =
        !(demoLiqOrgInfo.isLiquidated.getD false)) ∧
    (∃ orgs1 ms1,
      create_or_update_organization_from_esia [] [] 4 9 demoLiqOrgInfo 5 =
        .ok (mkEsiaOrgRow 4 10 demoLiqOrgInfo, orgs1, ms1) ∧
      (mkEsiaOrgRow 4 10 demoLiqOrgInfo).is_active = demoLiqOrgInfo.active.getD true ∧
      (mkEsiaOrgRow 4 10 demoLiqOrgInfo).is_liquidated =
        demoLiqOrgInfo.isLiquidated.getD false) := by
  constructor
  · exact (C6_is_active_reconciliation [demoOrg] [] 4 9 5 demoLiqOrgInfo 10 (by decide)).1
      demoOrg demoOrg (by decide) (by decide)
  · exact (C6_is_active_reconciliation [] [] 4 9 5 demoLiqOrgInfo 10 (by decide)).2
      (by decide)

/-- C10: when `create_or_update_user_from_esia` reconciles an existing user
(found by `esia_uid`, then re-found by internal id), the update writes
exactly the nine `UserUpdate` fields (`first_name, last_name, middle_name,
trusted, status, verifying, e_tag, updated_on, state_facts`) and leaves
`r_id_doc` and `contains_up_cfm_code` (and the key columns) unchanged,
whatever the claim set says; those two fields are written only on the
create path, where they come from the claims. -/
theorem C10_user_reconciliation_frame (users : List UserRow) (nextId : Nat)
    (info : EsiaUserInfo) :
    (∀ u, users.find? (fun x => x.esia_uid == info.uid.getD info.sub) = some u →
      users.find? (fun x => x.id == u.id) = some u →
      create_or_update_user_from_esia users nextId info =
        .ok (applyEsiaUserUpdate info u,
             updateFirst (fun x => x.id == u.id) (applyEsiaUserUpdate info) users) ∧
      (applyEsiaUserUpdate info u).r_id_doc = u.r_id_doc ∧
      (applyEsiaUserUpdate info u).contains_up_cfm_code = u.contains_up_cfm_code ∧
      (applyEsiaUserUpdate info u).id = u.id ∧
      (applyEsiaUserUpdate info u).esia_uid = u.esia_uid ∧
      (applyEsiaUserUpdate info u).first_name = info.firstName ∧
      (applyEsiaUserUpdate info u).last_name = info.lastName ∧
      (applyEsiaUserUpdate info u).middle_name = info.middleName ∧
      (applyEsiaUserUpdate info u).trusted = info.trusted.getD false ∧
      (applyEsiaUserUpdate info u).status = info.status ∧
      (applyEsiaUserUpdate info u).verifying = info.verifying.getD false ∧
      (applyEsiaUserUpdate info u).e_tag = info.eTag ∧
      (applyEsiaUserUpdate info u).updated_on = info.updatedOn ∧
      (applyEsiaUserUpdate info u).state_facts = info.stateFacts.getD []) ∧
    (users.find? (fun x => x.esia_uid == info.uid.getD info.sub) = none →
      create_or_update_user_from_esia users nextId info =
        .ok (mkEsiaUserRow nextId (info.uid.getD info.sub) info,
             users ++ [mkEsiaUserRow nextId (info.uid.getD info.sub) info]) ∧
      (mkEsiaUserRow nextId (info.uid.getD info.sub) info).r_id_doc = info.rIdDoc ∧
      (mkEsiaUserRow nextId (info.uid.getD info.sub) info).contains_up_cfm_code =
        info.containsUpCfmCode.getD false) := by
  constructor
  · intro u h1 h2
    refine ⟨?_, rfl, rfl, rfl, rfl, rfl, rfl, rfl, rfl, rfl, rfl, rfl, rfl, rfl⟩
    simp [create_or_update_user_from_esia, h1, h2]
  · intro h
    refine ⟨?_, rfl, rfl⟩
    simp [create_or_update_user_from_esia, h]

/-- Witness for C10 at a concrete input: re-reconciling the stored user
`1000123456` from a claim set with new names leaves `r_id_doc = 42` and
`contains_up_cfm_code = true` untouched while the name is rewritten. -/
theorem C10_user_reconciliation_frame_witness :
    create_or_update_user_from_esia [demoUser] 2 demoUserInfo =
      .ok (applyEsiaUserUpdate demoUserInfo demoUser,
           updateFirst (fun x => x.id == demoUser.id)
             (applyEsiaUserUpdate demoUserInfo) [demoUser]) ∧
    (applyEsiaUserUpdate demoUserInfo demoUser).r_id_doc = some 42 ∧
    (applyEsiaUserUpdate demoUserInfo demoUser).contains_up_cfm_code = true ∧
    (applyEsiaUserUpdate demoUserInfo demoUser).first_name = some "Пётр" := by
  have h := (C10_user_reconciliation_frame [demoUser] 2 demoUserInfo).1 demoUser
    (by decide) (by decide)
  exact ⟨h.1, by rw [h.2.1]; rfl, by rw [h.2.2.1]; rfl, by rw [h.2.2.2.2.2.1]; rfl⟩

end EsiaGateway
